import Mathlib

/-!
Verification development for the nginx-log-archiver batch scripts.

The Python sources are shallowly embedded: Python strings become lists of
Unicode code points (`Str`), remote storage becomes an explicit world record
with injectable failures, and every pipeline entry point becomes a pure
function from a world and its CLI arguments to the trace of remote-storage
effects it performs.  Local row transformation (the schema normalizer and the
sort) is embedded at the value level.
-/

namespace LogArchiver

/-- Python strings, modelled as their lists of Unicode code points.  Python
compares strings lexicographically by code point, which coincides with the
`LinearOrder (List Char)` instance used below. -/
abbrev Str := List Char

/-- Code points of a Lean string literal. -/
def str (s : String) : Str := s.data

/-- Python's substring test `pat in s`: some suffix of `s` starts with `pat`. -/
def strHas (s pat : Str) : Bool :=
  (List.range (s.length + 1)).any (fun i => List.isPrefixOf pat (s.drop i))

/-- Python `s.split(",")`: split on every comma, keeping empty pieces
(so `"".split(",") == [""]`). -/
def splitComma : Str → List Str
  | [] => [[]]
  | c :: rest =>
    if c = ',' then [] :: splitComma rest
    else
      match splitComma rest with
      | s :: ss => (c :: s) :: ss
      | [] => [c] :: []

/-- Numeric value of a decimal digit character. -/
def digitVal (c : Char) : ℕ := c.toNat - 48

/-- Value of a nonempty all-digit string, `none` otherwise. -/
def parseNatDigits (cs : Str) : Option ℕ :=
  if cs ≠ [] ∧ cs.all Char.isDigit then
    some (cs.foldl (fun n c => n * 10 + digitVal c) 0)
  else none

/-- Python `int(s)` on a string: an optional sign followed by digits
(no other form appears in this repository's data). -/
def pyIntStr (s : Str) : Option ℤ :=
  match s with
  | '-' :: cs => (parseNatDigits cs).map (fun n => -(n : ℤ))
  | '+' :: cs => (parseNatDigits cs).map (fun n => (n : ℤ))
  | cs => (parseNatDigits cs).map (fun n => (n : ℤ))

/-- An exact decimal value `num / 10 ^ exp`.  The source manipulates these
values as IEEE doubles; the embedding idealises the arithmetic as exact.
The concrete inputs used in the theorems below are dyadic decimals on which
the double computations performed by the source are themselves exact, so the
idealisation agrees with the source there. -/
structure Dec where
  num : ℤ
  exp : ℕ
deriving DecidableEq, Repr

/-- The rational value of a `Dec`. -/
def Dec.toRat (d : Dec) : ℚ := (d.num : ℚ) / (10 : ℚ) ^ d.exp

/-- Multiplication of a parsed float by a natural constant (exact here;
exact as a double as well for the inputs used in concrete theorems). -/
def Dec.mulNat (d : Dec) (k : ℕ) : Dec := ⟨d.num * k, d.exp⟩

/-- Python `float(s)` restricted to plain decimal literals
`[+-]digits[.digits]`, the only shape this repository's data uses. -/
def pyFloatStr (s : Str) : Option Dec :=
  let sgncs : ℤ × Str :=
    match s with
    | '-' :: cs => (-1, cs)
    | '+' :: cs => (1, cs)
    | cs => (1, cs)
  let sgn := sgncs.1
  let cs := sgncs.2
  let ip := cs.takeWhile (fun c => c ≠ '.')
  match cs.dropWhile (fun c => c ≠ '.') with
  | [] => (parseNatDigits ip).map (fun n => ⟨sgn * n, 0⟩)
  | _ :: fp =>
    if (ip ≠ [] ∨ fp ≠ []) ∧ ip.all Char.isDigit ∧ fp.all Char.isDigit then
      some ⟨sgn * ((ip.foldl (fun n c => n * 10 + digitVal c) 0 : ℕ) * 10 ^ fp.length +
        (fp.foldl (fun n c => n * 10 + digitVal c) 0 : ℕ)), fp.length⟩
    else none

/-- Python `int(x)` applied to a float value: truncation toward zero. -/
def pyTruncDec (d : Dec) : ℤ :=
  if 0 ≤ d.num then ((d.num.toNat / 10 ^ d.exp : ℕ) : ℤ)
  else -((((-d.num).toNat / 10 ^ d.exp : ℕ)) : ℤ)

/-- `re.sub(r"\r|\n|\"|'", "", ua)` from consolidator.py: every CR, LF,
double-quote and single-quote character is removed. -/
def uaClean (s : Str) : Str :=
  s.filter (fun c =>
    !(c == Char.ofNat 13 || c == Char.ofNat 10 || c == Char.ofNat 34 || c == Char.ofNat 39))

/-- One canonical 12-field output row, mirroring the 12-element Python list
built in `consolidate_json_access_requests` (consolidator.py). -/
structure LogRow where
  timestamp : Str
  remote_ip : Str
  host : Str
  path : Str
  params : Str
  method : Str
  protocol : Str
  status : ℤ
  request_time_micros : ℤ
  bytes_sent : ℤ
  user_agent : Str
  email : Str
deriving DecidableEq, Repr

/-- The comparison key of a row: Python compares the 12-element row lists
element-wise, left to right, i.e. lexicographically over all twelve fields. -/
abbrev RowKey :=
  Str ×ₗ Str ×ₗ Str ×ₗ Str ×ₗ Str ×ₗ Str ×ₗ Str ×ₗ ℤ ×ₗ ℤ ×ₗ ℤ ×ₗ Str ×ₗ Str

def rowKey (r : LogRow) : RowKey :=
  toLex (r.timestamp, toLex (r.remote_ip, toLex (r.host, toLex (r.path,
    toLex (r.params, toLex (r.method, toLex (r.protocol, toLex (r.status,
    toLex (r.request_time_micros, toLex (r.bytes_sent,
    toLex (r.user_agent, r.email)))))))))))

/-- Rows are ordered exactly as Python orders the corresponding lists:
the order is lifted along the (injective) key. -/
instance : LinearOrder LogRow :=
  LinearOrder.lift' rowKey (by
    intro a b h
    cases a
    cases b
    simp only [rowKey, toLex_inj, Prod.mk.injEq] at h
    obtain ⟨h1, h2, h3, h4, h5, h6, h7, h8, h9, h10, h11, h12⟩ := h
    subst h1 h2 h3 h4 h5 h6 h7 h8 h9 h10 h11 h12
    rfl)

/-- `sorted(loglist)` from consolidator.py line 123.  Python's sort is a
comparison sort over the full row lists; because the full-row order is total
and antisymmetric the sorted permutation is unique, so any correct sorting
algorithm is an exact model of it. -/
def sortRows (l : List LogRow) : List LogRow := List.insertionSort (· ≤ ·) l

/-- One JSON log line of consolidator.py after `json.loads`.  A line that is
not valid JSON, or that lacks the `source` key, raises outside the `try`
block and aborts the whole run; such lines are outside this record type.
`hasLog` records whether the key `log` is present.  The remaining fields hold
the (string) values of the keys read inside the `try` block. -/
structure JsonRecord where
  source : Str
  hasLog : Bool
  timestamp : Str
  remote_ip : Str
  host : Str
  uri : Str
  query : Str
  method : Str
  protocol : Str
  status : Str
  request_time : Str
  bytes_sent : Str
  user_agent : Str
  ssouser : Str
deriving DecidableEq, Repr

/-- The body of the `try` block of `consolidate_json_access_requests`
(consolidator.py lines 98-115): coerce `status` and `bytes_sent` with `int`,
compute `int(float(request_time) * 1000 * 1000)`, strip the user agent.
`none` models the exception path (a required-field coercion failure). -/
def normalizeRecord (d : JsonRecord) : Option LogRow :=
  match pyIntStr d.status, pyFloatStr d.request_time, pyIntStr d.bytes_sent with
  | some st, some rt, some bs =>
    some { timestamp := d.timestamp, remote_ip := d.remote_ip, host := d.host,
           path := d.uri, params := d.query, method := d.method,
           protocol := d.protocol, status := st,
           request_time_micros := pyTruncDec ((rt.mulNat 1000).mulNat 1000),
           bytes_sent := bs,
           user_agent := uaClean d.user_agent, email := d.ssouser }
  | _, _, _ => none

/-- Per-line step of `consolidate_json_access_requests`: only `stdout` lines
without a `log` key are considered; the second component collects the
per-row diagnostics the loop emits for a discarded row — the source's
handler is `except: pass`, so a coercion failure is discarded silently and
contributes no diagnostic and no exception. -/
def processLine (d : JsonRecord) : List LogRow × List Str :=
  if d.source == str ("stdout") && !d.hasLog then
    match normalizeRecord d with
    | some r => ([r], [])
    | none => ([], [])
  else ([], [])

/-- All rows and diagnostics produced from one downloaded JSON file. -/
def processFile (lines : List JsonRecord) : List LogRow × List Str :=
  (((lines.map processLine).map Prod.fst).flatten,
   ((lines.map processLine).map Prod.snd).flatten)

/-- `consolidate_json_access_requests`, content level: accumulate the valid
rows of every source file in file order, then emit them sorted. -/
def consolidate_json_access_requests (files : List (List JsonRecord)) :
    List LogRow × List Str :=
  (sortRows ((files.map (fun f => (processFile f).1)).flatten),
   (files.map (fun f => (processFile f).2)).flatten)

/-- Minimal-quoting rule of the `csv` writer: a field is quoted iff it
contains the delimiter, the quote character, CR or LF; embedded quote
characters are doubled. -/
def csvField (s : Str) : Str :=
  if s.any (fun c =>
      c == ',' || c == Char.ofNat 34 || c == Char.ofNat 13 || c == Char.ofNat 10) then
    Char.ofNat 34 ::
      ((s.map (fun c => if c = Char.ofNat 34 then [c, c] else [c])).flatten
        ++ [Char.ofNat 34])
  else s

/-- One CSV record: comma-joined fields with the writer's CRLF terminator. -/
def csvRow (fields : List Str) : Str :=
  (List.intercalate (str (",")) (fields.map csvField)) ++ str ("\r\n")

/-- Python `str` of an integer. -/
def intStr (n : ℤ) : Str := (toString n).data

/-- The 12 serialized fields of a canonical row, in schema order. -/
def rowFields (r : LogRow) : List Str :=
  [r.timestamp, r.remote_ip, r.host, r.path, r.params, r.method, r.protocol,
   intStr r.status, intStr r.request_time_micros, intStr r.bytes_sent,
   r.user_agent, r.email]

/-- The bytes of the consolidated access-log CSV written from an accumulated
row list (consolidator.py lines 119-126). -/
def csvOut (l : List LogRow) : Str :=
  ((sortRows l).map (fun r => csvRow (rowFields r))).flatten

/-- A sort entry of `consolidate_logfiles` (consolidator_fastly.py line 35):
`[row[0], row]`, compared element-wise like any Python list.  `row[0]`
raises IndexError on an empty row, aborting the run; the embedding totalises
that corner with `[]`. -/
def fastlyEntry (r : List Str) : Str ×ₗ List Str := toLex (r.headD [], r)

/-- `consolidate_logfiles`, content level (consolidator_fastly.py lines
23-47): sort the `[timestamp, row]` entries, then write back only the rows
that have exactly 12 fields. -/
def consolidate_logfiles (rows : List (List Str)) : List (List Str) :=
  ((List.insertionSort (· ≤ ·) (rows.map fastlyEntry)).filter
      (fun e => (ofLex e).2.length == 12)).map (fun e => (ofLex e).2)

/-- The bytes of the consolidated Fastly CSV. -/
def fastlyCsvOut (rows : List (List Str)) : Str :=
  ((consolidate_logfiles rows).map csvRow).flatten

/-- A remote-storage effect of the consolidator pipeline (consolidator.py).
Listing calls are read-only and tracked by the enumeration function itself;
the trace records transfers and mutations. -/
inductive Event
  | download (name : Str)
  | downloadFailed (name : Str)
  | upload (name : Str)
  | uploadRaised (name : Str)
  | delete (name : Str)
  | deleteFailed (name : Str)
deriving DecidableEq, Repr

/-- A source blob as seen by the container listing. -/
structure Blob where
  name : Str
deriving DecidableEq, Repr

/-- The remote container together with injected failure outcomes for the
single-shot storage calls. -/
structure World where
  blobs : List Blob
  failDownload : Str → Bool
  failUpload : Str → Bool
  failDelete : Str → Bool

/-- The enumeration shared by `download_json_logs` and `delete_json_logs`
(consolidator.py lines 27-35 and 63-70): for each host of the comma-separated
list, list the blobs whose name starts with the host and keep those whose
name contains the datestamp. -/
def enumJsonBlobs (w : World) (datestamp hosts : Str) : List Blob :=
  ((splitComma hosts).map (fun h =>
    (w.blobs.filter (fun b => List.isPrefixOf h b.name)).filter
      (fun b => strHas b.name datestamp))).flatten

/-- The download loop of `download_json_logs`: stops at the first failing
download (the failure is logged and the function returns `None`). -/
def downloadLoop (w : World) : List Blob → List Event × Bool
  | [] => ([], true)
  | b :: rest =>
    if w.failDownload b.name then ([Event.downloadFailed b.name], false)
    else
      let r := downloadLoop w rest
      (Event.download b.name :: r.1, r.2)

/-- consolidator.py `download_json_logs`: `false` models the `None` the
source returns both for an empty enumeration and for a failed download;
`true` models its `return True`. -/
def download_json_logs (w : World) (datestamp hosts : Str) : List Event × Bool :=
  let blobs := enumJsonBlobs w datestamp hosts
  if blobs.isEmpty then ([], false)
  else downloadLoop w blobs

/-- The delete loop of `delete_json_logs`: a failing delete is logged and
the function returns, leaving the remaining blobs undeleted. -/
def deleteLoop (w : World) : List Blob → List Event
  | [] => []
  | b :: rest =>
    if w.failDelete b.name then [Event.deleteFailed b.name]
    else Event.delete b.name :: deleteLoop w rest

/-- consolidator.py `delete_json_logs`: re-enumerates and deletes. -/
def delete_json_logs (w : World) (datestamp hosts : Str) : List Event :=
  deleteLoop w (enumJsonBlobs w datestamp hosts)

/-- consolidator.py `consolidate_logs` (lines 173-188): the trace of remote
effects of one run plus whether an exception escaped.  The Boolean result of
`download_json_logs` is dropped on the floor by the source, so the run
continues into consolidation, the two uploads and (optionally) the source
deletion regardless of a download failure or an empty enumeration.  An
upload failure raises and propagates; a delete failure is swallowed inside
`delete_json_logs`. -/
def consolidate_logs (w : World) (datestamp hosts : Str) (delete_source : Bool) :
    List Event × Bool :=
  let dl := download_json_logs w datestamp hosts
  let outAccess := datestamp ++ str (".nginx.access.csv")
  if w.failUpload outAccess then (dl.1 ++ [Event.uploadRaised outAccess], true)
  else
    let outErrors := datestamp ++ str (".nginx.errors.csv")
    if w.failUpload outErrors then
      (dl.1 ++ [Event.upload outAccess, Event.uploadRaised outErrors], true)
    else
      (dl.1 ++ [Event.upload outAccess, Event.upload outErrors] ++
        (if delete_source then delete_json_logs w datestamp hosts else []), false)

/-- The `__main__` entry of consolidator.py: trace plus process exit code
(nonzero exactly when an exception escapes `consolidate_logs`). -/
def consolidate_main (w : World) (datestamp hosts : Str) (delete_source : Bool) :
    List Event × ℕ :=
  let r := consolidate_logs w datestamp hosts delete_source
  (r.1, if r.2 then 1 else 0)

/-- Ordered alternatives of the `%m` pattern of `datetime.strptime`
(`1[0-2] | 0[1-9] | [1-9]`), each returning the month value and the
remaining characters. -/
def monthCand (cs : Str) : List (ℕ × Str) :=
  (match cs with
   | '1' :: c :: rest =>
     if c = '0' ∨ c = '1' ∨ c = '2' then [(10 + digitVal c, rest)] else []
   | _ => []) ++
  (match cs with
   | '0' :: c :: rest =>
     if '1' ≤ c ∧ c ≤ '9' then [(digitVal c, rest)] else []
   | _ => []) ++
  (match cs with
   | c :: rest => if '1' ≤ c ∧ c ≤ '9' then [(digitVal c, rest)] else []
   | [] => [])

/-- Ordered alternatives of the `%d` pattern
(`3[01] | [12][0-9] | 0[1-9] | [1-9]`). -/
def dayCand (cs : Str) : List (ℕ × Str) :=
  (match cs with
   | '3' :: c :: rest => if c = '0' ∨ c = '1' then [(30 + digitVal c, rest)] else []
   | _ => []) ++
  (match cs with
   | c :: c2 :: rest =>
     if (c = '1' ∨ c = '2') ∧ c2.isDigit then
       [(digitVal c * 10 + digitVal c2, rest)]
     else []
   | _ => []) ++
  (match cs with
   | '0' :: c :: rest => if '1' ≤ c ∧ c ≤ '9' then [(digitVal c, rest)] else []
   | _ => []) ++
  (match cs with
   | c :: rest => if '1' ≤ c ∧ c ≤ '9' then [(digitVal c, rest)] else []
   | [] => [])

/-- Backtracking match of `%m%d` against the whole remaining input: the
first month/day alternative pair under which the input is fully consumed,
in the regex's alternative order. -/
def matchMonthDay (cs : Str) : Option (ℕ × ℕ) :=
  (((monthCand cs).map (fun mc =>
    (dayCand mc.2).filterMap (fun dc =>
      if dc.2 = [] then some (mc.1, dc.1) else none))).flatten).head?

def isLeapYear (y : ℕ) : Bool :=
  (y % 4 == 0 && y % 100 != 0) || y % 400 == 0

def daysInMonth (y m : ℕ) : ℕ :=
  if m = 2 then (if isLeapYear y then 29 else 28)
  else if m = 4 ∨ m = 6 ∨ m = 9 ∨ m = 11 then 30
  else 31

/-- `datetime.strptime(datestamp, "%Y%m%d")` succeeds: four year digits,
then a backtracking `%m%d` match of the rest, then the constructed date must
be valid (`MINYEAR <= year`, day within the month). -/
def validDatestamp (s : Str) : Bool :=
  match s with
  | y1 :: y2 :: y3 :: y4 :: rest =>
    if y1.isDigit && y2.isDigit && y3.isDigit && y4.isDigit then
      let y := ((digitVal y1 * 10 + digitVal y2) * 10 + digitVal y3) * 10 + digitVal y4
      match matchMonthDay rest with
      | some (m, d) => decide (1 ≤ y) && decide (d ≤ daysInMonth y m)
      | none => false
    else false
  | _ => false

/-- A remote-storage effect of archiver.py. -/
inductive AEvent
  | listBlobs (pre : Str)
  | download (name : Str)
  | downloadFailed (name : Str)
  | upload (name : Str)
  | setTier (name : Str) (tier : Str)
  | delete (name : Str)
  | deleteRaised (name : Str)
deriving DecidableEq, Repr

/-- The archiver's container plus injected failures.  `failLoad` models a
`pyarrow.csv.read_csv` exception while loading a downloaded file (caught:
the function logs and returns). -/
structure AWorld where
  blobs : List Str
  failDownload : Str → Bool
  failUpload : Bool
  failLoad : Bool
  failDelete : Str → Bool

/-- The download loop of archiver.py `download_logs` (lines 34-58): lists
blobs by datestamp and stops at the first failure, returning `None`. -/
def aDownloadLoop (w : AWorld) : List Str → List AEvent × Bool
  | [] => ([], true)
  | n :: rest =>
    if w.failDownload n then ([AEvent.downloadFailed n], false)
    else
      let r := aDownloadLoop w rest
      (AEvent.download n :: r.1, r.2)

def archiver_download_logs (w : AWorld) (datestamp : Str) : List AEvent × Bool :=
  let names := w.blobs.filter (fun n => List.isPrefixOf datestamp n)
  if names.isEmpty then ([AEvent.listBlobs datestamp], false)
  else
    let r := aDownloadLoop w names
    (AEvent.listBlobs datestamp :: r.1, r.2)

/-- The source-deletion loop of `archive_logs`: `delete_blob` has no handler
here, so a failure raises and propagates, aborting the loop. -/
def aDeleteLoop (w : AWorld) : List Str → List AEvent × Bool
  | [] => ([], false)
  | n :: rest =>
    if w.failDelete n then ([AEvent.deleteRaised n], true)
    else
      let r := aDeleteLoop w rest
      (AEvent.delete n :: r.1, r.2)

/-- archiver.py `archive_logs` (lines 82-154): trace of remote effects plus
whether an exception escaped.  The datestamp is validated first; an invalid
value is logged and the function returns before any storage call. -/
def archive_logs (w : AWorld) (datestamp : Str) (delete_source : Bool) :
    List AEvent × Bool :=
  if !validDatestamp datestamp then ([], false)
  else
    let csv_blobs := w.blobs.filter (fun n => List.isPrefixOf datestamp n)
    if csv_blobs.isEmpty then ([AEvent.listBlobs datestamp], false)
    else
      let dl := archiver_download_logs w datestamp
      let evs := AEvent.listBlobs datestamp :: dl.1
      if !dl.2 then (evs, false)
      else if w.failLoad then (evs, false)
      else
        let pqBlob := str ("archive/") ++ datestamp ++ str (".nginx.access.parquet")
        if w.failUpload then (evs, true)
        else
          let evs := evs ++ [AEvent.upload pqBlob, AEvent.setTier pqBlob (str ("Cold"))]
          if delete_source then
            let r := aDeleteLoop w csv_blobs
            (evs ++ r.1, r.2)
          else (evs, false)

/-- The `__main__` entry of archiver.py: trace plus process exit code. -/
def archive_main (w : AWorld) (datestamp : Str) (delete_source : Bool) :
    List AEvent × ℕ :=
  let r := archive_logs w datestamp delete_source
  (r.1, if r.2 then 1 else 0)

/-- archiver.py `prepend_header_row`'s canonical header (line 68) — note the
ninth column name uses the micro sign. -/
def headerRow : Str :=
  str ("timestamp,remote_ip,host,path,params,method,protocol,status,request_time_µs,bytes_sent,user_agent,email")

/-- archiver.py `prepend_header_row` (lines 61-71) at the content level:
`none` models the `False` returned for an empty file (the caller then skips
the file); otherwise the header line is prepended. -/
def prepend_header_row (content : Str) : Option Str :=
  if content.length ≤ 0 then none
  else some (headerRow ++ Char.ofNat 10 :: content)

/-- A blob of the retention sweeper's container. -/
structure RBlob where
  name : Str
  creation_time : ℤ
deriving DecidableEq, Repr

structure RWorld where
  blobs : List RBlob
  failDelete : Str → Bool

/-- An effect of logfile_clean.py `delete_logs`. -/
inductive REvent
  | listBlobs
  | logDryRun (name : Str)
  | delete (name : Str)
  | deleteRaised (name : Str)
deriving DecidableEq, Repr

/-- The selection of logfile_clean.py line 28: blobs strictly older than the
cutoff whose name ends with the extension.  `cutoff` stands for the value
`datetime(today - days, midnight)` in UTC; the ambient clock is abstracted
as a parameter. -/
def sweepSelect (w : RWorld) (cutoff : ℤ) (ext : Str) : List RBlob :=
  w.blobs.filter (fun b => decide (b.creation_time < cutoff) && List.isSuffixOf ext b.name)

/-- The sweep loop (logfile_clean.py lines 30-36): a dry run only logs; a
real delete has no handler, so a failure raises and aborts the loop. -/
def sweepLoop (w : RWorld) (dry : Bool) : List RBlob → List REvent
  | [] => []
  | b :: rest =>
    if dry then REvent.logDryRun b.name :: sweepLoop w dry rest
    else if w.failDelete b.name then [REvent.deleteRaised b.name]
    else REvent.delete b.name :: sweepLoop w dry rest

/-- logfile_clean.py `delete_logs`. -/
def delete_logs (w : RWorld) (cutoff : ℤ) (ext : Str) (dry_run : Bool) : List REvent :=
  REvent.listBlobs :: sweepLoop w dry_run (sweepSelect w cutoff ext)

/-- The mutating storage calls among the sweeper's effects. -/
def isMutating : REvent → Bool
  | REvent.delete _ => true
  | REvent.deleteRaised _ => true
  | _ => false

/-- The emitted `request_time_micros` field of an optional normalized row. -/
def microsOf : Option LogRow → Option ℤ
  | some r => some r.request_time_micros
  | none => none

/-- A concrete canonical row used in concrete-input theorems. -/
def rowA : LogRow :=
  { timestamp := str ("2024-01-15T10:00:00Z"), remote_ip := str ("10.0.0.1"),
    host := str ("example.org"), path := str ("/a"), params := [],
    method := str ("GET"), protocol := str ("HTTP/1.1"), status := 200,
    request_time_micros := 1000, bytes_sent := 10,
    user_agent := str ("curl"), email := [] }

/-- The same row with a later remote address and the same timestamp. -/
def rowB : LogRow := { rowA with remote_ip := str ("10.0.0.2") }

/-- A world with three matching source blobs in which the second download
fails. -/
def wC1 : World :=
  { blobs := [⟨str ("az-nginx-003/20240115-00.access.json")⟩,
              ⟨str ("az-nginx-003/20240115-01.access.json")⟩,
              ⟨str ("az-nginx-003/20240115-02.access.json")⟩],
    failDownload := fun n => n == str ("az-nginx-003/20240115-01.access.json"),
    failUpload := fun _ => false,
    failDelete := fun _ => false }

/-- A world whose container holds no blobs at all. -/
def wC4 : World :=
  { blobs := [], failDownload := fun _ => false,
    failUpload := fun _ => false, failDelete := fun _ => false }

/-- A concrete well-formed JSON access-log line. -/
def recGood1 : JsonRecord :=
  { source := str ("stdout"), hasLog := false,
    timestamp := str ("2024-01-15T10:00:00Z"), remote_ip := str ("10.0.0.1"),
    host := str ("example.org"), uri := str ("/a"), query := [],
    method := str ("GET"), protocol := str ("HTTP/1.1"), status := str ("200"),
    request_time := str ("0.004"), bytes_sent := str ("512"),
    user_agent := str ("curl"), ssouser := [] }

/-- The same line with a non-numeric `status`, failing integer coercion. -/
def recBad : JsonRecord := { recGood1 with status := str ("abc") }

/-- A second well-formed line. -/
def recGood2 : JsonRecord := { recGood1 with remote_ip := str ("10.0.0.2") }

/-- A well-formed line whose `request_time` is the dyadic decimal
`3 * 2 ^ -22` seconds, on which every double operation the source performs
is exact, and whose value in microseconds has fractional part above one
half. -/
def recC6 : JsonRecord := { recGood1 with request_time := str ("0.0000007152557373046875") }

/-- A retention-sweep world with three matching logs whose first delete
fails. -/
def wC9 : RWorld :=
  { blobs := [⟨str ("a.log"), 0⟩, ⟨str ("b.log"), 0⟩, ⟨str ("c.log"), 0⟩],
    failDelete := fun n => n == str ("a.log") }

/-- A retention-sweep world with two matching logs whose second delete
fails. -/
def wC9b : RWorld :=
  { blobs := [⟨str ("x.log"), 0⟩, ⟨str ("y.log"), 0⟩],
    failDelete := fun n => n == str ("y.log") }

/-- An archiver world with one matching blob and no failures. -/
def wC3 : AWorld :=
  { blobs := [str ("20240115.a.csv")], failDownload := fun _ => false,
    failUpload := false, failLoad := false, failDelete := fun _ => false }

/-- A sort over a linear order is determined by the multiset of its input. -/
theorem insertionSort_eq_of_perm {α : Type*} [LinearOrder α] {l₁ l₂ : List α}
    (h : l₁.Perm l₂) :
    List.insertionSort (· ≤ ·) l₁ = List.insertionSort (· ≤ ·) l₂ :=
  List.eq_of_perm_of_sorted
    ((List.perm_insertionSort _ l₁).trans (h.trans (List.perm_insertionSort _ l₂).symm))
    (List.sorted_insertionSort _ l₁) (List.sorted_insertionSort _ l₂)

theorem sortRows_eq_of_perm {l₁ l₂ : List LogRow} (h : l₁.Perm l₂) :
    sortRows l₁ = sortRows l₂ := insertionSort_eq_of_perm h

theorem LogRow.le_timestamp {a b : LogRow} (h : a ≤ b) : a.timestamp ≤ b.timestamp := by
  have h' : rowKey a ≤ rowKey b := h
  exact Prod.Lex.monotone_fst _ _ h'

theorem processLine_snd (d : JsonRecord) : (processLine d).2 = [] := by
  unfold processLine
  split
  · split <;> rfl
  · rfl

theorem processFile_snd (lines : List JsonRecord) : (processFile lines).2 = [] := by
  unfold processFile
  induction lines with
  | nil => rfl
  | cons d rest ih =>
    simp only [List.map_cons, List.flatten_cons] at ih ⊢
    rw [processLine_snd, ih]
    rfl

theorem sweepLoop_dry_no_mutation (w : RWorld) (l : List RBlob) :
    (sweepLoop w true l).filter isMutating = [] := by
  induction l with
  | nil => rfl
  | cons b rest ih => simp [sweepLoop, isMutating, ih]

/-- C8: for every retention sweep invoked with `dry_run = true`, the trace
contains no delete call and no other mutating call against remote storage,
regardless of how many objects match the age and extension filters. -/
theorem C8_dry_run_no_mutation (w : RWorld) (cutoff : ℤ) (ext : Str) :
    (delete_logs w cutoff ext true).filter isMutating = [] := by
  unfold delete_logs
  rw [List.filter_cons]
  simp [isMutating, sweepLoop_dry_no_mutation]

/-- C9 counterexample: with three selected objects and the first delete
failing, the sweep aborts immediately — no delete is attempted on the two
remaining objects, refuting per-object independence. -/
theorem C9_counterexample :
    (sweepSelect wC9 10 (str (".log"))).length = 3 ∧
    delete_logs wC9 10 (str (".log")) false =
      [REvent.listBlobs, REvent.deleteRaised (str ("a.log"))] := by decide

/-- C9 amended: during a sweep with `dry_run = false`, a failure deleting
one selected object raises and aborts the sweep: the objects before it are
deleted, and no deletion is attempted on any object after it. -/
theorem C9_amended (w : RWorld) (cutoff : ℤ) (ext : Str)
    (pre : List RBlob) (b : RBlob) (post : List RBlob)
    (hsel : sweepSelect w cutoff ext = pre ++ b :: post)
    (hpre : ∀ a ∈ pre, w.failDelete a.name = false)
    (hb : w.failDelete b.name = true) :
    delete_logs w cutoff ext false =
      REvent.listBlobs ::
        (pre.map (fun a => REvent.delete a.name) ++ [REvent.deleteRaised b.name]) := by
  unfold delete_logs
  rw [hsel]
  congr 1
  clear hsel
  induction pre with
  | nil => simp [sweepLoop, hb]
  | cons a rest ih =>
    have ha : w.failDelete a.name = false := hpre a (by simp)
    have ih' := ih (fun x hx => hpre x (by simp [hx]))
    simp [sweepLoop, ha, ih']

/-- C9 witness: a concrete sweep in which the first selected object is
deleted and the failing second one aborts the run. -/
theorem C9_witness :
    delete_logs wC9b 5 (str (".log")) false =
      [REvent.listBlobs, REvent.delete (str ("x.log")),
       REvent.deleteRaised (str ("y.log"))] :=
  (C9_amended wC9b 5 (str (".log")) [⟨str ("x.log"), 0⟩] ⟨str ("y.log"), 0⟩ []
    (by decide) (by decide) (by decide)).trans (by decide)

/-- C3 counterexample: the window key `2024-01-15` does not parse under the
accepted format; `archive_logs` performs no storage call, but the process
exits with code `0`, not a non-zero code as claimed. -/
theorem C3_counterexample :
    validDatestamp (str ("2024-01-15")) = false ∧
    archive_main wC3 (str ("2024-01-15")) true = ([], 0) := by decide

/-- C3 amended: for every window key that does not parse under the accepted
format, the run fails immediately with no storage calls and no other side
effects, and the process exits with code zero (the invalid key is only
logged; no exception escapes). -/
theorem C3_amended (w : AWorld) (ds : Str) (del : Bool)
    (h : validDatestamp ds = false) :
    archive_main w ds del = ([], 0) := by
  unfold archive_main archive_logs
  rw [h]
  rfl

/-- C3 witness: the amended theorem applied to the unparsable key `banana`. -/
theorem C3_witness : archive_main wC3 (str ("banana")) false = ([], 0) :=
  C3_amended wC3 (str ("banana")) false (by decide)

/-- C7 counterexample: the header actually prepended by
`prepend_header_row` names its ninth column `request_time_µs`, so it is not
the claimed string whose ninth column is `request_time_micros`. -/
theorem C7_counterexample :
    prepend_header_row (str ("x")) = some (headerRow ++ Char.ofNat 10 :: str ("x")) ∧
    headerRow ≠ str ("timestamp,remote_ip,host,path,params,method,protocol,status,request_time_micros,bytes_sent,user_agent,email") := by
  decide

/-- C7 amended: the header row prepended to every nonempty header-less
delimited source file is exactly the canonical 12-column header whose
columns are, in fixed order: timestamp, remote_ip, host, path, params,
method, protocol, status, request_time_µs, bytes_sent, user_agent, email. -/
theorem C7_amended (c : Str) (h : c ≠ []) :
    prepend_header_row c = some (headerRow ++ Char.ofNat 10 :: c) ∧
    splitComma headerRow =
      [str ("timestamp"), str ("remote_ip"), str ("host"), str ("path"),
       str ("params"), str ("method"), str ("protocol"), str ("status"),
       str ("request_time_µs"), str ("bytes_sent"), str ("user_agent"),
       str ("email")] := by
  refine ⟨?_, by decide⟩
  unfold prepend_header_row
  rw [if_neg (fun hc => h (List.eq_nil_of_length_eq_zero (Nat.le_zero.mp hc)))]

/-- C7 witness: the amended theorem applied to a one-line file body. -/
theorem C7_witness :
    prepend_header_row (str ("a,b")) = some (headerRow ++ Char.ofNat 10 :: str ("a,b")) ∧
    splitComma headerRow =
      [str ("timestamp"), str ("remote_ip"), str ("host"), str ("path"),
       str ("params"), str ("method"), str ("protocol"), str ("status"),
       str ("request_time_µs"), str ("bytes_sent"), str ("user_agent"),
       str ("email")] :=
  C7_amended (str ("a,b")) (by decide)

/-- C1: evaluation of `consolidate_logs` at a run in which the second of
three enumerated source blobs fails to download and the delete-source flag
is set.  Because `consolidate_logs` drops the failure result of
`download_json_logs`, both consolidated artifacts are still uploaded and all
three source blobs (including the never-downloaded third one) are still
deleted, and the process exits zero — contradicting the claim that no
artifact is uploaded and no source blob is deleted. -/
theorem C1_code_eval :
    consolidate_main wC1 (str ("20240115")) (str ("az-nginx-003")) true =
      ([Event.download (str ("az-nginx-003/20240115-00.access.json")),
        Event.downloadFailed (str ("az-nginx-003/20240115-01.access.json")),
        Event.upload (str ("20240115.nginx.access.csv")),
        Event.upload (str ("20240115.nginx.errors.csv")),
        Event.delete (str ("az-nginx-003/20240115-00.access.json")),
        Event.delete (str ("az-nginx-003/20240115-01.access.json")),
        Event.delete (str ("az-nginx-003/20240115-02.access.json"))], 0) := by
  decide

/-- C4: evaluation of the consolidator pipeline at a run whose source-blob
enumeration is empty.  The run exits zero and deletes nothing, but it is not
a no-op: it still uploads two (empty) consolidated artifacts, because the
empty-enumeration early return of `download_json_logs` is not seen by
`consolidate_logs` — contradicting the claim of zero uploads. -/
theorem C4_code_eval :
    enumJsonBlobs wC4 (str ("20240115")) (str ("az-nginx-003")) = [] ∧
    consolidate_main wC4 (str ("20240115")) (str ("az-nginx-003")) true =
      ([Event.upload (str ("20240115.nginx.access.csv")),
        Event.upload (str ("20240115.nginx.errors.csv"))], 0) := by
  decide

/-- C5 counterexample: in a file with two coercible rows around one row
whose `status` is the non-numeric `abc`, the bad row is discarded and the
remaining rows are processed, but the diagnostics trace is empty — the
source's handler is `except: pass` — refuting the claim that exactly one
diagnostic entry is emitted for the discarded row. -/
theorem C5_counterexample :
    normalizeRecord recBad = none ∧
    (processFile [recGood1, recBad, recGood2]).1.length = 2 ∧
    (processFile [recGood1, recBad, recGood2]).2 = [] := by decide

/-- C5 amended: every input row that fails required-field coercion is
discarded silently — zero diagnostic entries are emitted — without raising,
and the remaining rows of the same file are still processed. -/
theorem C5_amended (pre post : List JsonRecord) (bad : JsonRecord)
    (hsrc : bad.source = str ("stdout")) (hlog : bad.hasLog = false)
    (hbad : normalizeRecord bad = none) :
    processFile (pre ++ bad :: post) =
      ((processFile pre).1 ++ (processFile post).1, []) := by
  have hb : processLine bad = ([], []) := by
    unfold processLine
    rw [hsrc, hlog, hbad]
    simp
  refine Prod.ext ?_ (processFile_snd _)
  show ((((pre ++ bad :: post).map processLine).map Prod.fst).flatten) = _
  simp [processFile, List.map_append, hb, List.map_map]

/-- C5 witness: the amended theorem applied to the concrete three-line
file around the non-numeric-status row. -/
theorem C5_witness :
    processFile ([recGood1] ++ recBad :: [recGood2]) =
      ((processFile [recGood1]).1 ++ (processFile [recGood2]).1, []) :=
  C5_amended [recGood1] [recGood2] recBad (by decide) (by decide) (by decide)

/-- C6 counterexample: for the record whose `request_time` is
`0.0000007152557373046875` seconds (a value on which the source's double
arithmetic is exact), the emitted `request_time_micros` is `0`, while the
nearest integer to the value times one million is `1` — refuting the claim
that the emitted value is `round(t * 1_000_000)`. -/
theorem C6_counterexample :
    pyFloatStr recC6.request_time = some ⟨7152557373046875, 22⟩ ∧
    microsOf (normalizeRecord recC6) = some 0 ∧
    round ((Dec.mk 7152557373046875 22).toRat * 1000000) = 1 := by
  refine ⟨by decide, by decide, ?_⟩
  rw [round_eq, Dec.toRat]
  rw [show ((⟨7152557373046875, 22⟩ : Dec).num : ℚ) = 7152557373046875 from rfl,
    show (⟨7152557373046875, 22⟩ : Dec).exp = 22 from rfl]
  rw [Int.floor_eq_iff]
  constructor <;> norm_num

theorem pyTruncDec_nonneg_eq_floor (d : Dec) (h : 0 ≤ d.num) :
    pyTruncDec d = ⌊d.toRat⌋ := by
  obtain ⟨num, e⟩ := d
  simp only at h
  obtain ⟨n, rfl⟩ := Int.eq_ofNat_of_zero_le h
  unfold pyTruncDec Dec.toRat
  simp only [Int.toNat_natCast]
  rw [if_pos h, eq_comm, Int.floor_eq_iff]
  have hp : (0 : ℚ) < (10 : ℚ) ^ e := by positivity
  constructor
  · rw [le_div_iff₀ hp]
    exact_mod_cast Nat.div_mul_le_self n (10 ^ e)
  · rw [div_lt_iff₀ hp]
    have hlt : n < (n / 10 ^ e + 1) * 10 ^ e :=
      calc n = 10 ^ e * (n / 10 ^ e) + n % 10 ^ e := (Nat.div_add_mod _ _).symm
        _ < 10 ^ e * (n / 10 ^ e) + 10 ^ e :=
            Nat.add_lt_add_left (Nat.mod_lt n (by positivity)) _
        _ = (n / 10 ^ e + 1) * 10 ^ e := by ring
    push_cast
    exact_mod_cast hlt

/-- C6 amended: for every record whose `request_time` parses as a
(nonnegative) decimal, the normalizer emits
`request_time_micros = ⌊t * 1_000_000⌋` — the value truncated toward zero,
not rounded to the nearest integer. -/
theorem C6_amended (d : JsonRecord) (st bs : ℤ) (rt : Dec)
    (hst : pyIntStr d.status = some st)
    (hrt : pyFloatStr d.request_time = some rt)
    (hbs : pyIntStr d.bytes_sent = some bs)
    (hpos : 0 ≤ rt.num) :
    microsOf (normalizeRecord d) = some ⌊rt.toRat * 1000000⌋ := by
  unfold normalizeRecord
  rw [hst, hrt, hbs]
  show some (pyTruncDec ((rt.mulNat 1000).mulNat 1000)) = _
  have hnum : 0 ≤ ((rt.mulNat 1000).mulNat 1000).num := by
    unfold Dec.mulNat
    positivity
  rw [pyTruncDec_nonneg_eq_floor _ hnum]
  congr 1
  unfold Dec.toRat Dec.mulNat
  push_cast
  ring_nf

/-- C6 witness: the amended theorem applied to a concrete record with
`request_time = 0.004`, whose emitted microseconds are
`⌊0.004 * 1_000_000⌋`. -/
theorem C6_witness :
    microsOf (normalizeRecord recGood1) = some ⌊(Dec.mk 4 3).toRat * 1000000⌋ :=
  C6_amended recGood1 200 512 ⟨4, 3⟩ (by decide) (by decide) (by decide) (by decide)

/-- C2 counterexample: two rows share a timestamp, the later-encountered
`rowA` being smaller in the remaining fields; the consolidator's full-row
sort outputs them in field order, not in input encounter order — refuting
the claim of a stable sort keyed on the timestamp only. -/
theorem C2_counterexample :
    rowA.timestamp = rowB.timestamp ∧
    sortRows [rowB, rowA] = [rowA, rowB] ∧
    sortRows [rowB, rowA] ≠ [rowB, rowA] := by decide

/-- C2 amended: the consolidated output is sorted by the entire row
(lexicographically over all 12 fields, timestamp first), hence ordered
non-decreasing by timestamp; records with equal timestamps appear ordered
by their remaining fields, not by input encounter order.  The Fastly
consolidator likewise emits its 12-field rows ordered non-decreasing by
their first (timestamp) field. -/
theorem C2_amended :
    (∀ l : List LogRow, List.Sorted (· ≤ ·) (sortRows l) ∧
      List.Pairwise (fun a b : LogRow => a.timestamp ≤ b.timestamp) (sortRows l)) ∧
    (∀ rows : List (List Str),
      List.Pairwise (fun r r' : List Str => r.headD [] ≤ r'.headD [])
        (consolidate_logfiles rows)) := by
  refine ⟨fun l => ⟨List.sorted_insertionSort _ l, ?_⟩, fun rows => ?_⟩
  · exact List.Pairwise.imp (fun h => LogRow.le_timestamp h)
      (List.sorted_insertionSort _ l)
  · have hs : List.Sorted (· ≤ ·)
        (List.insertionSort (· ≤ ·) (rows.map fastlyEntry)) :=
      List.sorted_insertionSort _ _
    have hf : List.Pairwise (· ≤ ·)
        ((List.insertionSort (· ≤ ·) (rows.map fastlyEntry)).filter
          (fun e => (ofLex e).2.length == 12)) :=
      List.Pairwise.sublist (List.filter_sublist _) hs
    have hmem : ∀ e ∈ (List.insertionSort (· ≤ ·) (rows.map fastlyEntry)).filter
        (fun e => (ofLex e).2.length == 12),
        (ofLex e).1 = (ofLex e).2.headD [] := by
      intro e he
      have he' := (List.mem_filter.mp he).1
      rw [List.mem_insertionSort] at he'
      obtain ⟨r, _, rfl⟩ := List.mem_map.mp he'
      rfl
    unfold consolidate_logfiles
    rw [List.pairwise_map]
    exact hf.imp_of_mem (fun ha hb hab => by
      rw [← hmem _ ha, ← hmem _ hb]
      exact Prod.Lex.monotone_fst _ _ hab)

/-- C10: both consolidators sort on the entire row, so the serialized
output bytes are a function of the multiset of accumulated rows alone —
any permutation of the input (file order, line order) yields a byte-for-byte
identical artifact. -/
theorem C10_perm_invariance :
    (∀ l₁ l₂ : List LogRow, l₁.Perm l₂ → csvOut l₁ = csvOut l₂) ∧
    (∀ r₁ r₂ : List (List Str), r₁.Perm r₂ → fastlyCsvOut r₁ = fastlyCsvOut r₂) := by
  constructor
  · intro l₁ l₂ h
    unfold csvOut
    rw [sortRows_eq_of_perm h]
  · intro r₁ r₂ h
    unfold fastlyCsvOut consolidate_logfiles
    rw [insertionSort_eq_of_perm (h.map fastlyEntry)]

/-- C10 witness: the permutation-invariance theorem applied to concrete
two-element inputs presented in either order. -/
theorem C10_witness :
    csvOut [rowB, rowA] = csvOut [rowA, rowB] ∧
    fastlyCsvOut [[str ("t2")], [str ("t1")]] =
      fastlyCsvOut [[str ("t1")], [str ("t2")]] :=
  ⟨C10_perm_invariance.1 _ _ (List.Perm.swap rowA rowB []),
   C10_perm_invariance.2 _ _ (List.Perm.swap [str ("t1")] [str ("t2")] [])⟩

end LogArchiver
